import Mathlib

/-!
Verification of the process lifecycle coordinator of the
cloudflare-openhands-sdk repository.

The development shallowly embeds the TypeScript sources:
  - `src/utils/agent-server.ts` (`buildAgentServerCommand` and the path
    constants),
  - `src/openhands/types.ts` (`OpenhandsOptions`, `OpenhandsServer`,
    `OpenhandsStartupContext`, `OpenhandsStartupError`),
  - `src/openhands/openhands.ts` (`findExistingAgentServer`,
    `startAgentServer`, `ensureAgentServer`, `createOpenhandsServer`),
  - `src/routes.ts` (`findOpenhandsServer` and the stop / status routes of
    `createOpenhandsHandler`).

The sandbox (the `@cloudflare/sandbox` capability) is external: it is
modelled as an oracle environment `SandboxEnv` that fixes the outcome of
every sandbox call (the n-th `listProcesses` result, the n-th
`startProcess` outcome, the n-th `waitForPort` outcome, ...).  Every
embedded operation threads an explicit `SbState` that counts the sandbox
calls made so far and records them in a trace, so that theorems can speak
about "the locator is re-run exactly once" or "no new process is spawned".
-/

set_option maxRecDepth 40000

/-! ## Strings: the JavaScript `String.prototype.includes` check -/

/-- `s.includes pat` of JavaScript: `pat` occurs as a contiguous substring
of `s`.  Decided through the decidable infix relation on the underlying
character lists. -/
def strIncludes (s pat : String) : Bool :=
  decide (pat.data <:+: s.data)

/-- Characterisation of `strIncludes` as an explicit substring
decomposition. -/
theorem strIncludes_iff (s pat : String) :
    strIncludes s pat = true ↔ ∃ l r, s.data = l ++ pat.data ++ r := by
  simp only [strIncludes, decide_eq_true_iff]
  constructor
  · rintro ⟨l, r, h⟩
    exact ⟨l, r, h.symm⟩
  · rintro ⟨l, r, h⟩
    exact ⟨l, r, h.symm⟩

/-- A string with a non-empty substring is itself non-empty. -/
theorem ne_empty_of_strIncludes (s pat : String) (hpat : pat ≠ "")
    (h : strIncludes s pat = true) : s ≠ "" := by
  rcases (strIncludes_iff s pat).mp h with ⟨l, r, hd⟩
  intro hs
  subst hs
  have hnil : l ++ pat.data ++ r = [] := hd.symm
  rcases List.append_eq_nil.mp hnil with ⟨h1, _⟩
  rcases List.append_eq_nil.mp h1 with ⟨_, h3⟩
  exact hpat (String.ext (by simp [h3]))

/-- Build `s = pre ++ pat ++ suf` evidence into a `strIncludes` fact. -/
theorem strIncludes_of_parts (s pre pat suf : String)
    (h : s.data = pre.data ++ pat.data ++ suf.data) :
    strIncludes s pat = true := by
  simp only [strIncludes, decide_eq_true_iff]
  exact ⟨pre.data, suf.data, by rw [h]⟩

/-! ## JavaScript truthiness helpers for optional strings -/

/-- `v || dflt` of JavaScript for an optional string: `undefined` and the
empty string are falsy. -/
def jsOrDefault (v : Option String) (dflt : String) : String :=
  match v with
  | some s => if s = "" then dflt else s
  | none => dflt

/-! ## `src/utils/agent-server.ts`: constants and the Command Builder -/

/-- Default path to the agent-server executable
(`DEFAULT_AGENT_SERVER_PATH`). -/
def DEFAULT_AGENT_SERVER_PATH : String :=
  "/container-server/software-agent-sdk/.venv/bin/agent-server"

/-- Default working directory for agent-server
(`DEFAULT_AGENT_SERVER_DIR`). -/
def DEFAULT_AGENT_SERVER_DIR : String :=
  "/container-server/software-agent-sdk"

/-- The bare launch command `PATH --host 0.0.0.0 --port N` built inside
`buildAgentServerCommand` before the optional directory-change prefix. -/
def AGENT_SERVER_BASE_COMMAND (port : Nat) : String :=
  DEFAULT_AGENT_SERVER_PATH ++ " --host 0.0.0.0 --port " ++ toString port

/-- `buildAgentServerCommand(port, directory?)` of
`src/utils/agent-server.ts`: the command string, prefixed with
`cd directory && ` when the supplied directory is truthy (non-empty) and
differs from the default directory. -/
def buildAgentServerCommand (port : Nat) (directory : Option String) : String :=
  let command := AGENT_SERVER_BASE_COMMAND port
  match directory with
  | some d =>
      if d ≠ "" ∧ d ≠ DEFAULT_AGENT_SERVER_DIR then
        "cd " ++ d ++ " && " ++ command
      else
        command
  | none => command

/-! ## `src/openhands/types.ts`: options, handle and error types -/

/-- `OpenhandsOptions` of `src/openhands/types.ts`.  All fields are
optional in the source; `env` is the caller-supplied environment-variable
map. -/
structure OpenhandsOptions where
  port : Option Nat := none
  directory : Option String := none
  hostname : Option String := none
  exposePort : Option Bool := none
  env : List (String × String) := []
  sandboxName : Option String := none
deriving Repr, DecidableEq

/-- `OpenhandsServer` of `src/openhands/types.ts`: the caller-facing server
handle.  The `close()` closure of the source kills the process with id
`processId` via SIGTERM; it is modelled where needed through the kill
primitive keyed by `processId`. -/
structure OpenhandsServer where
  port : Nat
  url : String
  previewUrl : Option String
  processId : String
deriving Repr, DecidableEq

/-- `OpenhandsStartupContext` of `src/openhands/types.ts`. -/
structure OpenhandsStartupContext where
  port : Nat
  stderr : Option String := none
  command : Option String := none
  processId : Option String := none
deriving Repr, DecidableEq

/-- Errors that can escape the embedded operations:
`startup` is `OpenhandsStartupError` (code `OPENHANDS_STARTUP_FAILED`),
`sandbox` is a raw error thrown by a sandbox primitive (for instance a
rejected `startProcess`), and `config` is the plain `Error` thrown by
`createOpenhandsServer` when `exposePort` is requested without a
hostname. -/
inductive SdkError where
  | startup (message : String) (context : OpenhandsStartupContext) : SdkError
  | sandbox (message : String) : SdkError
  | config (message : String) : SdkError
deriving Repr, DecidableEq

/-- `logs.stderr || '(empty)'` of the source error messages. -/
def stderrDisplay (stderr : Option String) : String :=
  match stderr with
  | some s => if s = "" then "(empty)" else s
  | none => "(empty)"

/-! ## The sandbox capability as an oracle, with a call trace -/

/-- One call to the sandbox capability, as recorded in the trace. -/
inductive SbCall where
  | listProcesses : SbCall
  | startProcess (command : String) (cwd : String)
      (env : List (String × String)) : SbCall
  | waitForPort (processId : String) (port : Nat) (timeoutMs : Nat) : SbCall
  | getLogs (processId : String) : SbCall
  | exposePort (port : Nat) (hostname : String) : SbCall
deriving Repr, DecidableEq

/-- Counters and trace of the sandbox calls made so far. -/
structure SbState where
  listCalls : Nat
  startCalls : Nat
  waitCalls : Nat
  exposeCalls : Nat
  trace : List SbCall
deriving Repr, DecidableEq

/-- The state before any sandbox call. -/
def SbState.init : SbState :=
  { listCalls := 0, startCalls := 0, waitCalls := 0, exposeCalls := 0,
    trace := [] }

/-- A `ProcessRecord` of the sandbox's process table / a process handle:
id, command line and status (a status string such as `"starting"`,
`"running"`, `"stopped"`, ...). -/
structure Process where
  id : String
  command : String
  status : String
deriving Repr, DecidableEq

/-- Oracle fixing the outcome of every sandbox call.  `listings n` is the
process table returned by the n-th `listProcesses` call (the table is
external state that concurrent callers may change between observations);
`startResults n` is the n-th `startProcess` outcome (an error message, or
the id of the newly created process handle); `waitResults n` tells whether
the n-th `waitForPort` call succeeds; `stderrOf pid` is the captured
stderr that `getLogs` reports for process `pid`; `exposeResults n` is the
n-th `exposePort` outcome (an error, or the preview URL). -/
structure SandboxEnv where
  listings : Nat → List Process
  startResults : Nat → Except String String
  waitResults : Nat → Bool
  stderrOf : String → Option String
  exposeResults : Nat → Except String String

/-- `sandbox.listProcesses()`. -/
def listProcessesC (env : SandboxEnv) (s : SbState) :
    List Process × SbState :=
  (env.listings s.listCalls,
   { s with listCalls := s.listCalls + 1,
            trace := s.trace ++ [SbCall.listProcesses] })

/-- `sandbox.startProcess(command, {cwd, env})`: on success the sandbox
returns a process handle whose `command` field is the command it was
started with. -/
def startProcessC (env : SandboxEnv) (command cwd : String)
    (procEnv : List (String × String)) (s : SbState) :
    Except String Process × SbState :=
  let s1 := { s with startCalls := s.startCalls + 1,
                     trace := s.trace ++ [SbCall.startProcess command cwd procEnv] }
  match env.startResults s.startCalls with
  | Except.error m => (Except.error m, s1)
  | Except.ok pid =>
      (Except.ok { id := pid, command := command, status := "starting" }, s1)

/-- `process.waitForPort(port, {mode: 'http', path: '/', timeout})`:
`true` when the port becomes ready, `false` when the call throws
(timeout). -/
def waitForPortC (env : SandboxEnv) (processId : String)
    (port timeoutMs : Nat) (s : SbState) : Bool × SbState :=
  (env.waitResults s.waitCalls,
   { s with waitCalls := s.waitCalls + 1,
            trace := s.trace ++ [SbCall.waitForPort processId port timeoutMs] })

/-- `process.getLogs()` restricted to the `stderr` field the source
reads. -/
def getLogsC (env : SandboxEnv) (processId : String) (s : SbState) :
    Option String × SbState :=
  (env.stderrOf processId, { s with trace := s.trace ++ [SbCall.getLogs processId] })

/-- `sandbox.exposePort(port, {hostname})`: an error, or the preview URL
(the source accepts either a string result or `{url}`; both are the URL
here). -/
def exposePortC (env : SandboxEnv) (port : Nat) (hostname : String)
    (s : SbState) : Except String String × SbState :=
  (env.exposeResults s.exposeCalls,
   { s with exposeCalls := s.exposeCalls + 1,
            trace := s.trace ++ [SbCall.exposePort port hostname] })

/-! ## `src/openhands/openhands.ts`: the Lifecycle Coordinator -/

/-- `DEFAULT_PORT` of `src/openhands/openhands.ts`. -/
def DEFAULT_PORT : Nat := 8001

/-- The matching condition of the Process Locator, as one boolean: the
command line contains the agent-server path, contains `--port N` or
`--port=N`, and the status is `starting` or `running`. -/
def isAgentServerMatch (port : Nat) (proc : Process) : Bool :=
  strIncludes proc.command DEFAULT_AGENT_SERVER_PATH &&
  (strIncludes proc.command ("--port " ++ toString port) ||
   strIncludes proc.command ("--port=" ++ toString port)) &&
  (proc.status == "starting" || proc.status == "running")

/-- The loop of `findExistingAgentServer` of `src/openhands/openhands.ts`
over an already-fetched process table: the first process whose command
contains the agent-server path, then (nested check) contains `--port N` or
`--port=N`, then (nested check) whose status is `starting` or `running`;
`none` (the source's `null`) when no process qualifies.  The sandbox
`listProcesses` step of the source function is threaded by the caller
through `listProcessesC`. -/
def findExistingAgentServer : List Process → Nat → Option Process
  | [], _ => none
  | proc :: rest, port =>
      if strIncludes proc.command DEFAULT_AGENT_SERVER_PATH then
        if strIncludes proc.command ("--port " ++ toString port) ||
           strIncludes proc.command ("--port=" ++ toString port) then
          if proc.status == "starting" || proc.status == "running" then
            some proc
          else
            findExistingAgentServer rest port
        else
          findExistingAgentServer rest port
      else
        findExistingAgentServer rest port

/-- `startAgentServer` of `src/openhands/openhands.ts`: build the command,
start the process, then wait for readiness; a readiness failure is wrapped
into `OpenhandsStartupError` enriched with the captured stderr, while a
`startProcess` failure propagates unwrapped. -/
def startAgentServer (env : SandboxEnv) (port : Nat)
    (options : OpenhandsOptions) (s : SbState) :
    Except SdkError Process × SbState :=
  let directory := jsOrDefault options.directory DEFAULT_AGENT_SERVER_DIR
  let command := buildAgentServerCommand port (some directory)
  match startProcessC env command directory options.env s with
  | (Except.error m, s1) => (Except.error (SdkError.sandbox m), s1)
  | (Except.ok process, s1) =>
      match waitForPortC env process.id port 60000 s1 with
      | (true, s2) => (Except.ok process, s2)
      | (false, s2) =>
          let (stderr, s3) := getLogsC env process.id s2
          (Except.error (SdkError.startup
            ("agent-server failed to start on port " ++ toString port ++
              ". Stderr: " ++ stderrDisplay stderr)
            { port := port, stderr := stderr,
              command := some process.command,
              processId := some process.id }), s3)

/-- The reuse branch of `ensureAgentServer`: when the located process is
still `starting`, wait for its readiness and wrap a failure into
`OpenhandsStartupError` carrying the located process's command, id and
captured stderr; otherwise return the process unchanged.  The source
inlines this block twice (for the initially located process and for the
process located by the race re-check), with identical code. -/
def awaitStartingProcess (env : SandboxEnv) (port : Nat) (proc : Process)
    (s : SbState) : Except SdkError Process × SbState :=
  if proc.status == "starting" then
    match waitForPortC env proc.id port 60000 s with
    | (true, s1) => (Except.ok proc, s1)
    | (false, s1) =>
        let (stderr, s2) := getLogsC env proc.id s1
        (Except.error (SdkError.startup
          ("agent-server failed to start. Stderr: " ++ stderrDisplay stderr)
          { port := port, stderr := stderr,
            command := some proc.command,
            processId := some proc.id }), s2)
  else
    (Except.ok proc, s)

/-- `ensureAgentServer` of `src/openhands/openhands.ts`: locate an
existing matching process and reuse it; otherwise spawn, and on any spawn
or readiness failure re-run the locator exactly once, reusing a process a
concurrent caller may have started, and re-raising the original error when
the re-check finds nothing. -/
def ensureAgentServer (env : SandboxEnv) (port : Nat)
    (options : OpenhandsOptions) (s : SbState) :
    Except SdkError Process × SbState :=
  let (processes, s1) := listProcessesC env s
  match findExistingAgentServer processes port with
  | some existingProcess => awaitStartingProcess env port existingProcess s1
  | none =>
      match startAgentServer env port options s1 with
      | (Except.ok process, s2) => (Except.ok process, s2)
      | (Except.error startupError, s2) =>
          let (processes2, s3) := listProcessesC env s2
          match findExistingAgentServer processes2 port with
          | some retryProcess => awaitStartingProcess env port retryProcess s3
          | none => (Except.error startupError, s3)

/-- The message of the configuration error thrown by
`createOpenhandsServer` when `exposePort` is requested without a
hostname. -/
def HOSTNAME_REQUIRED_MSG : String :=
  "hostname is required when exposePort is true. Provide hostname in options or extract from request URL."

/-- `createOpenhandsServer` of `src/openhands/openhands.ts`: ensure the
server, then (only if requested) check the hostname and expose the port;
an exposure failure is logged and swallowed, leaving `previewUrl`
unset. -/
def createOpenhandsServer (env : SandboxEnv) (options : OpenhandsOptions)
    (s : SbState) : Except SdkError OpenhandsServer × SbState :=
  let port := options.port.getD DEFAULT_PORT
  match ensureAgentServer env port options s with
  | (Except.error e, s1) => (Except.error e, s1)
  | (Except.ok process, s1) =>
      if options.exposePort.getD false then
        match options.hostname with
        | none => (Except.error (SdkError.config HOSTNAME_REQUIRED_MSG), s1)
        | some h =>
            if h = "" then
              (Except.error (SdkError.config HOSTNAME_REQUIRED_MSG), s1)
            else
              match exposePortC env port h s1 with
              | (Except.ok u, s2) =>
                  (Except.ok { port := port,
                               url := "http://localhost:" ++ toString port,
                               previewUrl := some u,
                               processId := process.id }, s2)
              | (Except.error _, s2) =>
                  (Except.ok { port := port,
                               url := "http://localhost:" ++ toString port,
                               previewUrl := none,
                               processId := process.id }, s2)
      else
        (Except.ok { port := port,
                     url := "http://localhost:" ++ toString port,
                     previewUrl := none,
                     processId := process.id }, s1)

/-! ## `src/routes.ts`: the HTTP-facing stop / status routes -/

/-- One entry of `sandbox.getExposedPorts()`. -/
structure ExposedPort where
  port : Nat
  url : String
deriving Repr, DecidableEq

/-- Oracle for the sandbox calls the route layer makes: the n-th
`listProcesses` outcome (the route layer's calls may throw, which the
routes turn into HTTP 500), the `getExposedPorts('')` outcome, and the
outcome of `process.kill('SIGTERM')` keyed by process id. -/
structure RouteEnv where
  listings : Nat → Except String (List Process)
  exposedPorts : Except String (List ExposedPort)
  killResults : String → Except String Unit

/-- The JSON body shape of the stop / status route responses, restricted
to the keys the source writes. -/
structure RouteBody where
  success : Bool
  message : Option String := none
  error : Option String := none
  running : Option Bool := none
  port : Option Nat := none
  previewUrl : Option String := none
  procInfo : Option Process := none
deriving Repr, DecidableEq

/-- A `Response.json(body, {status})` result (status defaults to 200). -/
structure RouteResponse where
  status : Nat
  body : RouteBody
deriving Repr, DecidableEq

/-- The loop of `findOpenhandsServer` of `src/routes.ts` over an
already-fetched process table: the first process matching the agent-server
path, the port clause and a `running` / `starting` status is wrapped into
an `OpenhandsServer` handle whose `previewUrl` comes from an optional
`getExposedPorts('')` lookup (errors there are swallowed). -/
def findOpenhandsServer (exposed : Except String (List ExposedPort)) :
    List Process → Nat → Option OpenhandsServer
  | [], _ => none
  | proc :: rest, port =>
      if strIncludes proc.command DEFAULT_AGENT_SERVER_PATH &&
         (strIncludes proc.command ("--port " ++ toString port) ||
          strIncludes proc.command ("--port=" ++ toString port)) &&
         (proc.status == "running" || proc.status == "starting") then
        some { port := port,
               url := "http://localhost:" ++ toString port,
               previewUrl :=
                 (match exposed with
                  | Except.ok ports =>
                      (ports.find? (fun p => p.port == port)).map ExposedPort.url
                  | Except.error _ => none),
               processId := proc.id }
      else
        findOpenhandsServer exposed rest port

/-- The 500 failure envelope `{error, success: false}` of the stop /
status routes. -/
def routeError500 (m : String) : RouteResponse :=
  { status := 500, body := { success := false, error := some m } }

/-- The `/stop-openhands` branch of `createOpenhandsHandler` of
`src/routes.ts`: locate, close (kill) when found, 404 otherwise, 500 on
any thrown error. -/
def stopRoute (env : RouteEnv) (options : OpenhandsOptions) : RouteResponse :=
  let port := options.port.getD 8001
  match env.listings 0 with
  | Except.error m => routeError500 m
  | Except.ok processes =>
      match findOpenhandsServer env.exposedPorts processes port with
      | some server =>
          match env.killResults server.processId with
          | Except.ok _ =>
              { status := 200,
                body := { success := true, message := some "Server stopped" } }
          | Except.error m => routeError500 m
      | none =>
          { status := 404,
            body := { success := false, message := some "No server running" } }

/-- The `/openhands-status` branch of `createOpenhandsHandler` of
`src/routes.ts`: locate; when nothing is found answer 200 with
`{running: false, success: true}`; when found, re-list to refresh the
status and answer 200; 500 on any thrown error. -/
def statusRoute (env : RouteEnv) (options : OpenhandsOptions) : RouteResponse :=
  let port := options.port.getD 8001
  match env.listings 0 with
  | Except.error m => routeError500 m
  | Except.ok processes =>
      match findOpenhandsServer env.exposedPorts processes port with
      | none =>
          { status := 200, body := { success := true, running := some false } }
      | some server =>
          match env.listings 1 with
          | Except.error m => routeError500 m
          | Except.ok processes2 =>
              let process := processes2.find? (fun p => p.id == server.processId)
              { status := 200,
                body := { success := true,
                          running := some (match process with
                            | some pr => pr.status == "running"
                            | none => false),
                          port := some server.port,
                          previewUrl := server.previewUrl,
                          procInfo := process } }

/-! ## Basic facts about the Process Locator -/

/-- The locator's loop computes the first match of `isAgentServerMatch`. -/
theorem findExistingAgentServer_eq_find (processes : List Process) (port : Nat) :
    findExistingAgentServer processes port =
      processes.find? (isAgentServerMatch port) := by
  induction processes with
  | nil => rfl
  | cons proc rest ih =>
      cases h1 : strIncludes proc.command DEFAULT_AGENT_SERVER_PATH with
      | false =>
          simp [findExistingAgentServer, List.find?_cons, isAgentServerMatch, h1, ih]
      | true =>
          cases h2 : (strIncludes proc.command ("--port " ++ toString port) ||
                      strIncludes proc.command ("--port=" ++ toString port)) with
          | false =>
              simp [findExistingAgentServer, List.find?_cons, isAgentServerMatch,
                h1, h2, ih]
          | true =>
              cases h3 : (proc.status == "starting" || proc.status == "running") with
              | false =>
                  simp [findExistingAgentServer, List.find?_cons, isAgentServerMatch,
                    h1, h2, h3, ih]
              | true =>
                  simp [findExistingAgentServer, List.find?_cons, isAgentServerMatch,
                    h1, h2, h3]

/-- A located process satisfies the matching condition. -/
theorem isAgentServerMatch_of_found (processes : List Process) (port : Nat)
    (proc : Process)
    (h : findExistingAgentServer processes port = some proc) :
    isAgentServerMatch port proc = true := by
  rw [findExistingAgentServer_eq_find] at h
  exact List.find?_some h

/-- A located process has a non-empty command line (it contains the
agent-server path). -/
theorem command_ne_empty_of_match (port : Nat) (proc : Process)
    (h : isAgentServerMatch port proc = true) : proc.command ≠ "" := by
  have hpath : strIncludes proc.command DEFAULT_AGENT_SERVER_PATH = true := by
    simp only [isAgentServerMatch, Bool.and_eq_true] at h
    exact h.1.1
  exact ne_empty_of_strIncludes _ _ (by decide) hpath

/-- C4: for every process list and target port, the Process Locator
returns the first record whose command line contains the agent-server
binary path and contains `--port N` or `--port=N` for the target port and
whose status is `starting` or `running`; when no such record exists it
returns `none` (the source's `null`) as a normal not-found result — the
function is total and cannot fail. -/
theorem locator_first_match_contract (processes : List Process) (port : Nat) :
    findExistingAgentServer processes port =
      processes.find? (isAgentServerMatch port) ∧
    (findExistingAgentServer processes port = none ↔
      ∀ proc ∈ processes, isAgentServerMatch port proc = false) ∧
    (∀ proc : Process, isAgentServerMatch port proc = true ↔
      ((∃ l r, proc.command.data = l ++ DEFAULT_AGENT_SERVER_PATH.data ++ r) ∧
       ((∃ l r, proc.command.data =
            l ++ ("--port " ++ toString port).data ++ r) ∨
        (∃ l r, proc.command.data =
            l ++ ("--port=" ++ toString port).data ++ r)) ∧
       (proc.status = "starting" ∨ proc.status = "running"))) := by
  refine ⟨findExistingAgentServer_eq_find processes port, ?_, ?_⟩
  · rw [findExistingAgentServer_eq_find]
    rw [List.find?_eq_none]
    constructor
    · intro h proc hm
      have := h proc hm
      simp at this
      exact this
    · intro h proc hm
      simp [h proc hm]
  · intro proc
    simp only [isAgentServerMatch, Bool.and_eq_true, Bool.or_eq_true,
      strIncludes_iff, beq_iff_eq]
    constructor
    · rintro ⟨⟨hp, hq⟩, hs⟩
      exact ⟨hp, hq, hs⟩
    · rintro ⟨hp, hq, hs⟩
      exact ⟨⟨hp, hq⟩, hs⟩

/-- C10: the route layer's locator and the coordinator's locator implement
the same selection — one returns a handle exactly when the other returns a
process, and the handle's `processId` is the id of the first matching
process the coordinator's locator selects. -/
theorem findOpenhandsServer_refines_locator
    (exposed : Except String (List ExposedPort))
    (processes : List Process) (port : Nat) :
    (findOpenhandsServer exposed processes port).map OpenhandsServer.processId =
      (findExistingAgentServer processes port).map Process.id := by
  induction processes with
  | nil => rfl
  | cons proc rest ih =>
      cases h1 : strIncludes proc.command DEFAULT_AGENT_SERVER_PATH with
      | false => simp [findOpenhandsServer, findExistingAgentServer, h1, ih]
      | true =>
          cases h2 : (strIncludes proc.command ("--port " ++ toString port) ||
                      strIncludes proc.command ("--port=" ++ toString port)) with
          | false => simp [findOpenhandsServer, findExistingAgentServer, h1, h2, ih]
          | true =>
              cases h3r : (proc.status == "running") with
              | true =>
                  simp [findOpenhandsServer, findExistingAgentServer, h1, h2, h3r]
              | false =>
                  cases h3s : (proc.status == "starting") with
                  | true =>
                      simp [findOpenhandsServer, findExistingAgentServer,
                        h1, h2, h3r, h3s]
                  | false =>
                      simp [findOpenhandsServer, findExistingAgentServer,
                        h1, h2, h3r, h3s, ih]

/-! ## Facts about the Command Builder -/

/-- Substring facts survive prepending. -/
theorem strIncludes_append_left (t s pat : String)
    (h : strIncludes s pat = true) : strIncludes (t ++ s) pat = true := by
  rcases (strIncludes_iff s pat).mp h with ⟨l, r, hd⟩
  apply (strIncludes_iff _ _).mpr
  exact ⟨t.data ++ l, r, by simp [String.data_append, hd, List.append_assoc]⟩

/-- The bare launch command contains the agent-server path. -/
theorem baseCommand_includes_path (port : Nat) :
    strIncludes (AGENT_SERVER_BASE_COMMAND port) DEFAULT_AGENT_SERVER_PATH = true := by
  apply strIncludes_of_parts _ "" _ (" --host 0.0.0.0 --port " ++ toString port)
  simp [AGENT_SERVER_BASE_COMMAND, String.data_append, List.append_assoc]

/-- The bare launch command contains `--port N` for its own port. -/
theorem baseCommand_includes_port (port : Nat) :
    strIncludes (AGENT_SERVER_BASE_COMMAND port)
      ("--port " ++ toString port) = true := by
  apply strIncludes_of_parts _ (DEFAULT_AGENT_SERVER_PATH ++ " --host 0.0.0.0 ") _ ""
  have hsplit : (" --host 0.0.0.0 --port ").data =
      (" --host 0.0.0.0 ").data ++ ("--port ").data := by decide
  simp [AGENT_SERVER_BASE_COMMAND, String.data_append, hsplit, List.append_assoc]

/-- The command builder either yields the bare command or the
`cd <dir> && ` prefixed command, the latter exactly when the supplied
directory is non-empty and differs from the default. -/
theorem buildAgentServerCommand_cases (port : Nat) (directory : Option String) :
    (buildAgentServerCommand port directory = AGENT_SERVER_BASE_COMMAND port ∧
      ¬ ∃ d, directory = some d ∧ d ≠ "" ∧ d ≠ DEFAULT_AGENT_SERVER_DIR) ∨
    (∃ d, directory = some d ∧ d ≠ "" ∧ d ≠ DEFAULT_AGENT_SERVER_DIR ∧
      buildAgentServerCommand port directory =
        ("cd " ++ d ++ " && ") ++ AGENT_SERVER_BASE_COMMAND port) := by
  cases directory with
  | none => exact Or.inl ⟨rfl, by simp⟩
  | some d =>
      by_cases hcond : d ≠ "" ∧ d ≠ DEFAULT_AGENT_SERVER_DIR
      · refine Or.inr ⟨d, rfl, hcond.1, hcond.2, ?_⟩
        simp [buildAgentServerCommand, hcond, String.append_assoc]
      · refine Or.inl ⟨by simp [buildAgentServerCommand, hcond], ?_⟩
        rintro ⟨d', hd', h1, h2⟩
        cases hd'
        exact hcond ⟨h1, h2⟩

/-- Any built command contains the agent-server path. -/
theorem buildCommand_includes_path (port : Nat) (directory : Option String) :
    strIncludes (buildAgentServerCommand port directory)
      DEFAULT_AGENT_SERVER_PATH = true := by
  rcases buildAgentServerCommand_cases port directory with ⟨heq, _⟩ | ⟨d, _, _, _, heq⟩
  · rw [heq]; exact baseCommand_includes_path port
  · rw [heq]; exact strIncludes_append_left _ _ _ (baseCommand_includes_path port)

/-- Any built command contains `--port N` for its own port. -/
theorem buildCommand_includes_port (port : Nat) (directory : Option String) :
    strIncludes (buildAgentServerCommand port directory)
      ("--port " ++ toString port) = true := by
  rcases buildAgentServerCommand_cases port directory with ⟨heq, _⟩ | ⟨d, _, _, _, heq⟩
  · rw [heq]; exact baseCommand_includes_port port
  · rw [heq]; exact strIncludes_append_left _ _ _ (baseCommand_includes_port port)

/-- The builder–locator round trip: a process carrying a built command for
port `port` with a live status satisfies the locator's matching
condition for that same port. -/
theorem buildCommand_matches_locator (port : Nat) (directory : Option String)
    (pid st : String) (hst : st = "starting" ∨ st = "running") :
    isAgentServerMatch port
      { id := pid, command := buildAgentServerCommand port directory,
        status := st } = true := by
  simp only [isAgentServerMatch, Bool.and_eq_true, Bool.or_eq_true]
  refine ⟨⟨buildCommand_includes_path port directory, ?_⟩, ?_⟩
  · exact Or.inl (buildCommand_includes_port port directory)
  · rcases hst with h | h <;> simp [h]

/-- Whether a shell command string begins with a `cd ` directory change. -/
def hasCdPrefix (s : String) : Bool :=
  ("cd ").data.isPrefixOf s.data

/-- A list is a boolean prefix of itself followed by anything. -/
theorem isPrefixOf_append_self (a b : List Char) :
    a.isPrefixOf (a ++ b) = true := by
  induction a with
  | nil => simp [List.isPrefixOf]
  | cons x xs ih => simp [List.isPrefixOf, ih]

/-- The bare launch command does not begin with `cd `. -/
theorem hasCdPrefix_base (port : Nat) :
    hasCdPrefix (AGENT_SERVER_BASE_COMMAND port) = false := by
  have hd : DEFAULT_AGENT_SERVER_PATH.data ++ (" --host 0.0.0.0 --port ").data =
      '/' :: ("container-server/software-agent-sdk/.venv/bin/agent-server --host 0.0.0.0 --port ").data := by
    decide
  have hb : ('c' == '/') = false := by decide
  simp only [hasCdPrefix, AGENT_SERVER_BASE_COMMAND, String.data_append,
    List.append_assoc]
  rw [← List.append_assoc, hd]
  simp [List.isPrefixOf, hb]

/-- The built command begins with `cd ` exactly when a supplied directory
is non-empty and differs from the default directory. -/
theorem hasCdPrefix_buildCommand (port : Nat) (directory : Option String) :
    (hasCdPrefix (buildAgentServerCommand port directory) = true ↔
      ∃ d, directory = some d ∧ d ≠ "" ∧ d ≠ DEFAULT_AGENT_SERVER_DIR) := by
  rcases buildAgentServerCommand_cases port directory with
    ⟨heq, hno⟩ | ⟨d, hd, h1, h2, heq⟩
  · rw [heq]
    simp [hasCdPrefix_base, hno]
  · rw [heq]
    constructor
    · intro _
      exact ⟨d, hd, h1, h2⟩
    · intro _
      show (("cd ").data).isPrefixOf _ = true
      have : (("cd " ++ d ++ " && ") ++ AGENT_SERVER_BASE_COMMAND port).data =
          ("cd ").data ++
            (d.data ++ (" && ").data ++ (AGENT_SERVER_BASE_COMMAND port).data) := by
        simp [String.data_append, List.append_assoc]
      rw [this]
      exact isPrefixOf_append_self _ _

/-- `""` is a left identity for string append. -/
theorem empty_append_str (s : String) : "" ++ s = s := by
  apply String.ext
  have h0 : ("" : String).data = [] := rfl
  simp [String.data_append, h0]

/-- C8 (amended): the Command Builder is pure and deterministic — equal
inputs yield the identical command string; the string always ends with the
bare invocation binding the binary to `0.0.0.0` on the given port; it
carries a `cd <directory> && ` prefix exactly when a supplied directory is
non-empty (JavaScript-truthy) and differs from the default; and for every
port and directory the produced string is matched by the Process Locator's
pattern for that same port (builder–locator round trip).  The amendment
relative to the claim: a supplied *empty* directory string, although it
differs from the default, is falsy in the source and produces no `cd`
prefix. -/
theorem buildCommand_pure_shape_roundtrip :
    (∀ (p₁ p₂ : Nat) (d₁ d₂ : Option String), p₁ = p₂ → d₁ = d₂ →
       buildAgentServerCommand p₁ d₁ = buildAgentServerCommand p₂ d₂) ∧
    (∀ (port : Nat) (directory : Option String), ∃ pre,
       buildAgentServerCommand port directory =
         pre ++ AGENT_SERVER_BASE_COMMAND port) ∧
    (∀ (port : Nat) (directory : Option String),
       hasCdPrefix (buildAgentServerCommand port directory) = true ↔
         ∃ d, directory = some d ∧ d ≠ "" ∧ d ≠ DEFAULT_AGENT_SERVER_DIR) ∧
    (∀ (port : Nat) (directory : Option String) (pid st : String),
       st = "starting" ∨ st = "running" →
       isAgentServerMatch port
         { id := pid, command := buildAgentServerCommand port directory,
           status := st } = true) := by
  refine ⟨?_, ?_, hasCdPrefix_buildCommand, buildCommand_matches_locator⟩
  · intro p₁ p₂ d₁ d₂ hp hd
    rw [hp, hd]
  · intro port directory
    rcases buildAgentServerCommand_cases port directory with
      ⟨heq, _⟩ | ⟨d, _, _, _, heq⟩
    · exact ⟨"", by rw [heq, empty_append_str]⟩
    · exact ⟨"cd " ++ d ++ " && ", heq⟩

/-- C8 witness: the round-trip and determinism parts of the theorem at the
concrete input port 8001, directory `/tmp`, status `starting`. -/
theorem buildCommand_pure_shape_roundtrip_witness :
    buildAgentServerCommand 8001 (some "/tmp") =
      buildAgentServerCommand 8001 (some "/tmp") ∧
    isAgentServerMatch 8001
      { id := "p1", command := buildAgentServerCommand 8001 (some "/tmp"),
        status := "starting" } = true :=
  ⟨buildCommand_pure_shape_roundtrip.1 8001 8001 (some "/tmp") (some "/tmp")
      rfl rfl,
   buildCommand_pure_shape_roundtrip.2.2.2 8001 (some "/tmp") "p1" "starting"
      (Or.inl rfl)⟩

/-- C8 counterexample: with port 8001 and supplied directory `""` the
directory differs from the default, yet the produced command carries no
`cd` prefix — refuting the claim's "prefixed exactly when a supplied
directory differs from the default". -/
theorem buildCommand_prefix_iff_fails_at_empty_dir :
    ¬ (hasCdPrefix (buildAgentServerCommand 8001 (some "")) = true ↔
        ("" : String) ≠ DEFAULT_AGENT_SERVER_DIR) := by
  intro hiff
  have hne : ("" : String) ≠ DEFAULT_AGENT_SERVER_DIR := by decide
  have := hiff.mpr hne
  have hfalse : hasCdPrefix (buildAgentServerCommand 8001 (some "")) = false := by
    decide
  rw [this] at hfalse
  simp at hfalse

/-! ## Counter bookkeeping of the coordinator's steps -/

/-- The reuse-wait step makes no `listProcesses`, `startProcess` or
`exposePort` call. -/
theorem awaitStartingProcess_counters (env : SandboxEnv) (port : Nat)
    (proc : Process) (s : SbState) :
    (awaitStartingProcess env port proc s).2.listCalls = s.listCalls ∧
    (awaitStartingProcess env port proc s).2.startCalls = s.startCalls ∧
    (awaitStartingProcess env port proc s).2.exposeCalls = s.exposeCalls := by
  unfold awaitStartingProcess waitForPortC getLogsC
  by_cases h : (proc.status == "starting") = true
  · cases hw : env.waitResults s.waitCalls <;> simp [h, hw]
  · simp [h]

/-- The spawn-and-probe step makes exactly one `startProcess` call and no
`listProcesses` or `exposePort` call. -/
theorem startAgentServer_counters (env : SandboxEnv) (port : Nat)
    (options : OpenhandsOptions) (s : SbState) :
    (startAgentServer env port options s).2.listCalls = s.listCalls ∧
    (startAgentServer env port options s).2.startCalls = s.startCalls + 1 ∧
    (startAgentServer env port options s).2.exposeCalls = s.exposeCalls := by
  unfold startAgentServer startProcessC waitForPortC getLogsC
  cases hs : env.startResults s.startCalls with
  | error m => simp [hs]
  | ok pid => cases hw : env.waitResults s.waitCalls <;> simp [hs, hw]

/-- C2: when the Process Locator finds a matching process, `ensureAgentServer`
never calls `startProcess` in that call and behaves exactly as the reuse
branch: if the found process is `starting`, the readiness probe runs
against it — a probe failure yields the startup error carrying the found
process's id, command and captured stderr, and a probe success (or a
status other than `starting`, i.e. `running`) returns the found process
itself. -/
theorem ensure_reuse_no_spawn (env : SandboxEnv) (port : Nat)
    (options : OpenhandsOptions) (s : SbState) (p : Process) (s1 : SbState)
    (hs1 : s1 = { s with listCalls := s.listCalls + 1,
                         trace := s.trace ++ [SbCall.listProcesses] })
    (hfound : findExistingAgentServer (env.listings s.listCalls) port = some p) :
    ensureAgentServer env port options s = awaitStartingProcess env port p s1 ∧
    (ensureAgentServer env port options s).2.startCalls = s.startCalls ∧
    (p.status ≠ "starting" →
       ensureAgentServer env port options s = (Except.ok p, s1)) ∧
    (p.status = "starting" → env.waitResults s1.waitCalls = true →
       ensureAgentServer env port options s =
         (Except.ok p,
          { s1 with waitCalls := s1.waitCalls + 1,
                    trace := s1.trace ++ [SbCall.waitForPort p.id port 60000] })) ∧
    (p.status = "starting" → env.waitResults s1.waitCalls = false →
       (ensureAgentServer env port options s).1 =
         Except.error (SdkError.startup
           ("agent-server failed to start. Stderr: " ++
             stderrDisplay (env.stderrOf p.id))
           { port := port, stderr := env.stderrOf p.id,
             command := some p.command, processId := some p.id })) := by
  subst hs1
  have hmain : ensureAgentServer env port options s =
      awaitStartingProcess env port p
        { s with listCalls := s.listCalls + 1,
                 trace := s.trace ++ [SbCall.listProcesses] } := by
    unfold ensureAgentServer listProcessesC
    simp [hfound]
  refine ⟨hmain, ?_, ?_, ?_, ?_⟩
  · rw [hmain]
    exact (awaitStartingProcess_counters env port p _).2.1
  · intro hst
    rw [hmain]
    unfold awaitStartingProcess
    simp [beq_iff_eq, hst]
  · intro hst hw
    rw [hmain]
    unfold awaitStartingProcess waitForPortC
    simp [beq_iff_eq, hst, hw]
  · intro hst hw
    rw [hmain]
    unfold awaitStartingProcess waitForPortC getLogsC
    simp [beq_iff_eq, hst, hw]

/-- Sandbox oracle used by the C2 witness: one running agent-server on
port 8001 is already in the table. -/
def envReuseW : SandboxEnv :=
  { listings := fun _ =>
      [{ id := "proc-1", command := AGENT_SERVER_BASE_COMMAND 8001,
         status := "running" }],
    startResults := fun _ => Except.error "unused",
    waitResults := fun _ => true,
    stderrOf := fun _ => none,
    exposeResults := fun _ => Except.error "unused" }

/-- C2 witness: at the concrete reuse scenario, the hypotheses hold and
the call spawns nothing. -/
theorem ensure_reuse_no_spawn_witness :
    findExistingAgentServer (envReuseW.listings 0) 8001 =
      some { id := "proc-1", command := AGENT_SERVER_BASE_COMMAND 8001,
             status := "running" } ∧
    (ensureAgentServer envReuseW 8001 {} SbState.init).2.startCalls =
      SbState.init.startCalls :=
  ⟨by decide,
   (ensure_reuse_no_spawn envReuseW 8001 {} SbState.init
     { id := "proc-1", command := AGENT_SERVER_BASE_COMMAND 8001,
       status := "running" }
     { SbState.init with listCalls := SbState.init.listCalls + 1,
                         trace := SbState.init.trace ++ [SbCall.listProcesses] }
     rfl (by decide)).2.1⟩

/-- C1: when the initial locate finds nothing and the spawn-and-probe
sequence fails with error `e`, the coordinator re-runs the Process Locator
exactly once (two `listProcesses` calls in total) and makes no further
spawn attempt (exactly one `startProcess` call in total); if the re-check
locates a process, its readiness is awaited exactly as in the reuse branch
(the same `awaitStartingProcess` step) and its handle is returned on
success, discarding `e`; if the re-check finds nothing, the very error `e`
is re-raised. -/
theorem ensure_race_recheck_once (env : SandboxEnv) (port : Nat)
    (options : OpenhandsOptions) (s s1 : SbState) (e : SdkError)
    (s2 s3 : SbState)
    (hs1 : s1 = { s with listCalls := s.listCalls + 1,
                         trace := s.trace ++ [SbCall.listProcesses] })
    (hnone : findExistingAgentServer (env.listings s.listCalls) port = none)
    (hfail : startAgentServer env port options s1 = (Except.error e, s2))
    (hs3 : s3 = { s2 with listCalls := s2.listCalls + 1,
                          trace := s2.trace ++ [SbCall.listProcesses] }) :
    ensureAgentServer env port options s =
      (match findExistingAgentServer (env.listings s2.listCalls) port with
       | some retryProcess => awaitStartingProcess env port retryProcess s3
       | none => (Except.error e, s3)) ∧
    (findExistingAgentServer (env.listings s2.listCalls) port = none →
       ensureAgentServer env port options s = (Except.error e, s3)) ∧
    (∀ p, findExistingAgentServer (env.listings s2.listCalls) port = some p →
       env.waitResults s3.waitCalls = true →
       (ensureAgentServer env port options s).1 = Except.ok p) ∧
    (ensureAgentServer env port options s).2.listCalls = s.listCalls + 2 ∧
    (ensureAgentServer env port options s).2.startCalls = s.startCalls + 1 := by
  subst hs1
  subst hs3
  have hcnt := startAgentServer_counters env port options
    { s with listCalls := s.listCalls + 1,
             trace := s.trace ++ [SbCall.listProcesses] }
  rw [hfail] at hcnt
  simp only [Prod.snd] at hcnt
  have hmain : ensureAgentServer env port options s =
      (match findExistingAgentServer (env.listings s2.listCalls) port with
       | some retryProcess => awaitStartingProcess env port retryProcess
           { s2 with listCalls := s2.listCalls + 1,
                     trace := s2.trace ++ [SbCall.listProcesses] }
       | none => (Except.error e,
           { s2 with listCalls := s2.listCalls + 1,
                     trace := s2.trace ++ [SbCall.listProcesses] })) := by
    unfold ensureAgentServer listProcessesC
    simp only [hnone]
    rw [hfail]
  refine ⟨hmain, ?_, ?_, ?_, ?_⟩
  · intro hr
    rw [hmain, hr]
  · intro p hr hw
    rw [hmain, hr]
    unfold awaitStartingProcess waitForPortC
    by_cases hst : (p.status == "starting") = true
    · simp [hst, hw]
    · simp [hst]
  · rw [hmain]
    have h1 : s2.listCalls = s.listCalls + 1 := by
      have := hcnt.1
      simpa using this
    cases hr : findExistingAgentServer (env.listings s2.listCalls) port with
    | none =>
        simp only [hr]
        show s2.listCalls + 1 = s.listCalls + 2
        omega
    | some p =>
        simp only [hr]
        rw [(awaitStartingProcess_counters env port p
          { s2 with listCalls := s2.listCalls + 1,
                    trace := s2.trace ++ [SbCall.listProcesses] }).1]
        show s2.listCalls + 1 = s.listCalls + 2
        omega
  · rw [hmain]
    have h2 : s2.startCalls = s.startCalls + 1 := by
      have := hcnt.2.1
      simpa using this
    cases hr : findExistingAgentServer (env.listings s2.listCalls) port with
    | none =>
        simp only [hr]
        show s2.startCalls = s.startCalls + 1
        omega
    | some p =>
        simp only [hr]
        rw [(awaitStartingProcess_counters env port p
          { s2 with listCalls := s2.listCalls + 1,
                    trace := s2.trace ++ [SbCall.listProcesses] }).2.1]
        show s2.startCalls = s.startCalls + 1
        omega

/-- Sandbox oracle used by the C1 witness: empty process table throughout,
spawn rejected. -/
def envRaceW : SandboxEnv :=
  { listings := fun _ => [],
    startResults := fun _ => Except.error "spawn rejected",
    waitResults := fun _ => true,
    stderrOf := fun _ => none,
    exposeResults := fun _ => Except.error "unused" }

/-- C1 witness: with nothing in the table and the spawn rejected, the
re-check finds nothing and the original error is re-raised after exactly
two locate calls and one spawn attempt. -/
theorem ensure_race_recheck_once_witness :
    findExistingAgentServer (envRaceW.listings 0) 8001 = none ∧
    ensureAgentServer envRaceW 8001 {} SbState.init =
      (Except.error (SdkError.sandbox "spawn rejected"),
       { listCalls := 2, startCalls := 1, waitCalls := 0, exposeCalls := 0,
         trace := [SbCall.listProcesses,
           SbCall.startProcess (AGENT_SERVER_BASE_COMMAND 8001)
             DEFAULT_AGENT_SERVER_DIR [],
           SbCall.listProcesses] }) :=
  ⟨by decide,
   (ensure_race_recheck_once envRaceW 8001 {} SbState.init
      { listCalls := 1, startCalls := 0, waitCalls := 0, exposeCalls := 0,
        trace := [SbCall.listProcesses] }
      (SdkError.sandbox "spawn rejected")
      { listCalls := 1, startCalls := 1, waitCalls := 0, exposeCalls := 0,
        trace := [SbCall.listProcesses,
          SbCall.startProcess (AGENT_SERVER_BASE_COMMAND 8001)
            DEFAULT_AGENT_SERVER_DIR []] }
      { listCalls := 2, startCalls := 1, waitCalls := 0, exposeCalls := 0,
        trace := [SbCall.listProcesses,
          SbCall.startProcess (AGENT_SERVER_BASE_COMMAND 8001)
            DEFAULT_AGENT_SERVER_DIR [],
          SbCall.listProcesses] }
      (by decide) (by decide) (by rfl) (by decide)).2.1 (by decide)⟩

/-- The coordinator never calls `exposePort`. -/
theorem ensureAgentServer_exposeCalls (env : SandboxEnv) (port : Nat)
    (options : OpenhandsOptions) (s : SbState) :
    (ensureAgentServer env port options s).2.exposeCalls = s.exposeCalls := by
  unfold ensureAgentServer listProcessesC
  cases hf : findExistingAgentServer (env.listings s.listCalls) port with
  | some p =>
      simp only [hf]
      exact (awaitStartingProcess_counters env port p _).2.2
  | none =>
      simp only [hf]
      cases hS : startAgentServer env port options
        { s with listCalls := s.listCalls + 1,
                 trace := s.trace ++ [SbCall.listProcesses] } with
      | mk r s2 =>
          have h2 : s2.exposeCalls = s.exposeCalls := by
            have := (startAgentServer_counters env port options
              { s with listCalls := s.listCalls + 1,
                       trace := s.trace ++ [SbCall.listProcesses] }).2.2
            rw [hS] at this
            simpa using this
          cases r with
          | ok p => simp only [hS]; exact h2
          | error e =>
              simp only [hS]
              cases hf2 : findExistingAgentServer (env.listings s2.listCalls) port with
              | some p =>
                  simp only [hf2]
                  rw [(awaitStartingProcess_counters env port p
                    { s2 with listCalls := s2.listCalls + 1,
                              trace := s2.trace ++ [SbCall.listProcesses] }).2.2]
                  exact h2
              | none => simp only [hf2]; exact h2

/-- C3 (amended): requesting exposure without a hostname does fail the
call with the configuration error, but only after the server has been
ensured — the hostname check precedes the exposure call (no `exposePort`
call is ever made), not the locate or spawn steps. -/
theorem create_config_error_after_ensure (env : SandboxEnv)
    (options : OpenhandsOptions) (p : Process) (s1 : SbState)
    (hexp : options.exposePort = some true)
    (hhost : options.hostname = none ∨ options.hostname = some "")
    (hens : ensureAgentServer env (options.port.getD DEFAULT_PORT) options
              SbState.init = (Except.ok p, s1)) :
    createOpenhandsServer env options SbState.init =
      (Except.error (SdkError.config HOSTNAME_REQUIRED_MSG), s1) ∧
    (createOpenhandsServer env options SbState.init).2.exposeCalls = 0 := by
  have hmain : createOpenhandsServer env options SbState.init =
      (Except.error (SdkError.config HOSTNAME_REQUIRED_MSG), s1) := by
    simp only [createOpenhandsServer]
    rw [hens]
    rcases hhost with h | h <;> simp [hexp, h]
  refine ⟨hmain, ?_⟩
  rw [hmain]
  have := ensureAgentServer_exposeCalls env (options.port.getD DEFAULT_PORT)
    options SbState.init
  rw [hens] at this
  simpa using this

/-- Sandbox oracle used by the C3 counterexample and witness: empty
process table, spawn succeeds, readiness probe succeeds. -/
def envConfigW : SandboxEnv :=
  { listings := fun _ => [],
    startResults := fun _ => Except.ok "proc-1",
    waitResults := fun _ => true,
    stderrOf := fun _ => none,
    exposeResults := fun _ => Except.error "unused" }

/-- C3 counterexample: with `exposePort` requested and no hostname, the
call does end in the configuration error, but only after one
`listProcesses` call and one `startProcess` call — refuting "immediately,
before any spawn attempt and before any other call to the sandbox". -/
theorem create_config_error_not_fail_fast :
    (createOpenhandsServer envConfigW { exposePort := some true }
        SbState.init).1 =
      Except.error (SdkError.config HOSTNAME_REQUIRED_MSG) ∧
    (createOpenhandsServer envConfigW { exposePort := some true }
        SbState.init).2.startCalls = 1 ∧
    (createOpenhandsServer envConfigW { exposePort := some true }
        SbState.init).2.listCalls = 1 := by
  refine ⟨?_, ?_, ?_⟩ <;> rfl

/-- C3 witness: the amended theorem applied at the concrete scenario of
the counterexample oracle. -/
theorem create_config_error_after_ensure_witness :
    createOpenhandsServer envConfigW { exposePort := some true } SbState.init =
      (Except.error (SdkError.config HOSTNAME_REQUIRED_MSG),
       { listCalls := 1, startCalls := 1, waitCalls := 1, exposeCalls := 0,
         trace := [SbCall.listProcesses,
           SbCall.startProcess (AGENT_SERVER_BASE_COMMAND 8001)
             DEFAULT_AGENT_SERVER_DIR [],
           SbCall.waitForPort "proc-1" 8001 60000] }) :=
  (create_config_error_after_ensure envConfigW { exposePort := some true }
    { id := "proc-1", command := AGENT_SERVER_BASE_COMMAND 8001,
      status := "starting" }
    { listCalls := 1, startCalls := 1, waitCalls := 1, exposeCalls := 0,
      trace := [SbCall.listProcesses,
        SbCall.startProcess (AGENT_SERVER_BASE_COMMAND 8001)
          DEFAULT_AGENT_SERVER_DIR [],
        SbCall.waitForPort "proc-1" 8001 60000] }
    rfl (Or.inl rfl) (by rfl)).1

/-- C7: when the server is ensured successfully and `exposePort` is
requested with a hostname, a failing exposure call is swallowed — the call
still resolves with a valid handle whose `previewUrl` is left unset, and
the exposure failure never propagates. -/
theorem create_expose_failure_tolerated (env : SandboxEnv)
    (options : OpenhandsOptions) (h m : String) (p : Process) (s1 : SbState)
    (hexp : options.exposePort = some true)
    (hhost : options.hostname = some h) (hh : h ≠ "")
    (hens : ensureAgentServer env (options.port.getD DEFAULT_PORT) options
              SbState.init = (Except.ok p, s1))
    (hfail : env.exposeResults s1.exposeCalls = Except.error m) :
    createOpenhandsServer env options SbState.init =
      (Except.ok
        { port := options.port.getD DEFAULT_PORT,
          url := "http://localhost:" ++ toString (options.port.getD DEFAULT_PORT),
          previewUrl := none,
          processId := p.id },
       { s1 with exposeCalls := s1.exposeCalls + 1,
                 trace := s1.trace ++
                   [SbCall.exposePort (options.port.getD DEFAULT_PORT) h] }) := by
  simp only [createOpenhandsServer]
  rw [hens]
  simp [hexp, hhost, hh, exposePortC, hfail]

/-- Sandbox oracle used by the C7 witness: empty table, spawn and probe
succeed, exposure fails. -/
def envExposeW : SandboxEnv :=
  { listings := fun _ => [],
    startResults := fun _ => Except.ok "proc-1",
    waitResults := fun _ => true,
    stderrOf := fun _ => none,
    exposeResults := fun _ => Except.error "infrastructure issue" }

/-- C7 witness: at the concrete scenario, the ensure succeeds, the
exposure call fails, and the overall call still resolves with
`previewUrl` unset. -/
theorem create_expose_failure_tolerated_witness :
    createOpenhandsServer envExposeW
        { exposePort := some true, hostname := some "example.com" }
        SbState.init =
      (Except.ok
        { port := 8001, url := "http://localhost:" ++ toString 8001,
          previewUrl := none, processId := "proc-1" },
       { listCalls := 1, startCalls := 1, waitCalls := 1, exposeCalls := 1,
         trace := [SbCall.listProcesses,
           SbCall.startProcess (AGENT_SERVER_BASE_COMMAND 8001)
             DEFAULT_AGENT_SERVER_DIR [],
           SbCall.waitForPort "proc-1" 8001 60000,
           SbCall.exposePort 8001 "example.com"] }) :=
  create_expose_failure_tolerated envExposeW
    { exposePort := some true, hostname := some "example.com" }
    "example.com" "infrastructure issue"
    { id := "proc-1", command := AGENT_SERVER_BASE_COMMAND 8001,
      status := "starting" }
    { listCalls := 1, startCalls := 1, waitCalls := 1, exposeCalls := 0,
      trace := [SbCall.listProcesses,
        SbCall.startProcess (AGENT_SERVER_BASE_COMMAND 8001)
          DEFAULT_AGENT_SERVER_DIR [],
        SbCall.waitForPort "proc-1" 8001 60000] }
    rfl rfl (by decide) (by rfl) rfl

/-- C9 (amended): the stop route answers 404 with a failure envelope when
no matching server process is found, while the status route in that case
answers 200 with the success envelope `{running: false, success: true}`
(not 404); on an unexpected error (a throwing `listProcesses` or a
throwing kill) both routes answer 500 with a failure envelope carrying the
error message. -/
theorem routes_not_found_and_error_envelopes (env : RouteEnv)
    (options : OpenhandsOptions) :
    (∀ procs, env.listings 0 = Except.ok procs →
       findOpenhandsServer env.exposedPorts procs (options.port.getD 8001) =
         none →
       stopRoute env options =
         { status := 404,
           body := { success := false, message := some "No server running" } } ∧
       statusRoute env options =
         { status := 200,
           body := { success := true, running := some false } }) ∧
    (∀ m, env.listings 0 = Except.error m →
       stopRoute env options = routeError500 m ∧
       statusRoute env options = routeError500 m ∧
       (routeError500 m).status = 500 ∧ (routeError500 m).body.success = false) ∧
    (∀ procs srv m, env.listings 0 = Except.ok procs →
       findOpenhandsServer env.exposedPorts procs (options.port.getD 8001) =
         some srv →
       env.killResults srv.processId = Except.error m →
       stopRoute env options = routeError500 m) := by
  refine ⟨?_, ?_, ?_⟩
  · intro procs hlist hfind
    constructor
    · unfold stopRoute
      simp [hlist, hfind]
    · unfold statusRoute
      simp [hlist, hfind]
  · intro m hlist
    refine ⟨?_, ?_, rfl, rfl⟩
    · unfold stopRoute
      simp [hlist]
    · unfold statusRoute
      simp [hlist]
  · intro procs srv m hlist hfind hkill
    unfold stopRoute
    simp [hlist, hfind, hkill]

/-- Route oracle used by the C9 counterexample and witness: an empty
process table and no exposed ports. -/
def envRoutesW : RouteEnv :=
  { listings := fun _ => Except.ok [],
    exposedPorts := Except.ok [],
    killResults := fun _ => Except.ok () }

/-- C9 counterexample: with nothing running, the status route answers
HTTP 200 (with `{running: false, success: true}`), not 404 — refuting the
claim that both stop and status answer 404 when no matching process is
found. -/
theorem statusRoute_not_404_when_empty :
    statusRoute envRoutesW {} =
      { status := 200, body := { success := true, running := some false } } ∧
    (statusRoute envRoutesW {}).status ≠ 404 := by
  refine ⟨by rfl, by decide⟩

/-- C9 witness: the amended theorem applied at the concrete empty-table
oracle. -/
theorem routes_not_found_and_error_envelopes_witness :
    stopRoute envRoutesW {} =
      { status := 404,
        body := { success := false, message := some "No server running" } } ∧
    statusRoute envRoutesW {} =
      { status := 200, body := { success := true, running := some false } } :=
  (routes_not_found_and_error_envelopes envRoutesW {}).1 [] rfl rfl

/-! ## Evaluation lemmas for the coordinator's branches -/

/-- `ensureAgentServer` when the first locate finds a process. -/
theorem ensure_eq_of_first_some (env : SandboxEnv) (port : Nat)
    (options : OpenhandsOptions) (s : SbState) (p : Process)
    (hfound : findExistingAgentServer (env.listings s.listCalls) port = some p) :
    ensureAgentServer env port options s =
      awaitStartingProcess env port p
        { s with listCalls := s.listCalls + 1,
                 trace := s.trace ++ [SbCall.listProcesses] } := by
  unfold ensureAgentServer listProcessesC
  simp [hfound]

/-- `ensureAgentServer` when the first locate finds nothing. -/
theorem ensure_eq_of_first_none (env : SandboxEnv) (port : Nat)
    (options : OpenhandsOptions) (s : SbState)
    (hnone : findExistingAgentServer (env.listings s.listCalls) port = none) :
    ensureAgentServer env port options s =
      (match startAgentServer env port options
          { s with listCalls := s.listCalls + 1,
                   trace := s.trace ++ [SbCall.listProcesses] } with
       | (Except.ok process, s2) => (Except.ok process, s2)
       | (Except.error err, s2) =>
           match findExistingAgentServer (env.listings s2.listCalls) port with
           | some retryProcess => awaitStartingProcess env port retryProcess
               { s2 with listCalls := s2.listCalls + 1,
                         trace := s2.trace ++ [SbCall.listProcesses] }
           | none => (Except.error err,
               { s2 with listCalls := s2.listCalls + 1,
                         trace := s2.trace ++ [SbCall.listProcesses] })) := by
  unfold ensureAgentServer listProcessesC
  simp only [hnone]

/-- The reuse wait on a process that is not `starting`. -/
theorem awaitStartingProcess_not_starting (env : SandboxEnv) (port : Nat)
    (p : Process) (s : SbState) (hst : p.status ≠ "starting") :
    awaitStartingProcess env port p s = (Except.ok p, s) := by
  unfold awaitStartingProcess
  simp [beq_iff_eq, hst]

/-- The reuse wait on a `starting` process whose probe succeeds. -/
theorem awaitStartingProcess_wait_true (env : SandboxEnv) (port : Nat)
    (p : Process) (s : SbState) (hst : p.status = "starting")
    (hw : env.waitResults s.waitCalls = true) :
    awaitStartingProcess env port p s =
      (Except.ok p,
       { s with waitCalls := s.waitCalls + 1,
                trace := s.trace ++ [SbCall.waitForPort p.id port 60000] }) := by
  unfold awaitStartingProcess waitForPortC
  simp [beq_iff_eq, hst, hw]

/-- The reuse wait on a `starting` process whose probe fails. -/
theorem awaitStartingProcess_wait_false (env : SandboxEnv) (port : Nat)
    (p : Process) (s : SbState) (hst : p.status = "starting")
    (hw : env.waitResults s.waitCalls = false) :
    awaitStartingProcess env port p s =
      (Except.error (SdkError.startup
         ("agent-server failed to start. Stderr: " ++
           stderrDisplay (env.stderrOf p.id))
         { port := port, stderr := env.stderrOf p.id,
           command := some p.command, processId := some p.id }),
       { s with waitCalls := s.waitCalls + 1,
                trace := s.trace ++ [SbCall.waitForPort p.id port 60000,
                  SbCall.getLogs p.id] }) := by
  unfold awaitStartingProcess waitForPortC getLogsC
  simp [beq_iff_eq, hst, hw]

/-- The spawn-and-probe step when `startProcess` itself throws. -/
theorem startAgentServer_start_error (env : SandboxEnv) (port : Nat)
    (options : OpenhandsOptions) (s : SbState) (m : String)
    (hm : env.startResults s.startCalls = Except.error m) :
    startAgentServer env port options s =
      (Except.error (SdkError.sandbox m),
       { s with startCalls := s.startCalls + 1,
                trace := s.trace ++ [SbCall.startProcess
                  (buildAgentServerCommand port
                    (some (jsOrDefault options.directory DEFAULT_AGENT_SERVER_DIR)))
                  (jsOrDefault options.directory DEFAULT_AGENT_SERVER_DIR)
                  options.env] }) := by
  unfold startAgentServer startProcessC
  simp [hm]

/-- The spawn-and-probe step when spawning succeeds and the probe fails. -/
theorem startAgentServer_wait_error (env : SandboxEnv) (port : Nat)
    (options : OpenhandsOptions) (s : SbState) (pid : String)
    (hok : env.startResults s.startCalls = Except.ok pid)
    (hw : env.waitResults s.waitCalls = false) :
    startAgentServer env port options s =
      (Except.error (SdkError.startup
         ("agent-server failed to start on port " ++ toString port ++
           ". Stderr: " ++ stderrDisplay (env.stderrOf pid))
         { port := port, stderr := env.stderrOf pid,
           command := some (buildAgentServerCommand port
             (some (jsOrDefault options.directory DEFAULT_AGENT_SERVER_DIR))),
           processId := some pid }),
       { s with startCalls := s.startCalls + 1, waitCalls := s.waitCalls + 1,
                trace := s.trace ++ [SbCall.startProcess
                    (buildAgentServerCommand port
                      (some (jsOrDefault options.directory DEFAULT_AGENT_SERVER_DIR)))
                    (jsOrDefault options.directory DEFAULT_AGENT_SERVER_DIR)
                    options.env,
                  SbCall.waitForPort pid port 60000,
                  SbCall.getLogs pid] }) := by
  unfold startAgentServer startProcessC waitForPortC getLogsC
  simp [hok, hw]

/-- The spawn-and-probe step when spawning succeeds and the probe
succeeds. -/
theorem startAgentServer_ok (env : SandboxEnv) (port : Nat)
    (options : OpenhandsOptions) (s : SbState) (pid : String)
    (hok : env.startResults s.startCalls = Except.ok pid)
    (hw : env.waitResults s.waitCalls = true) :
    startAgentServer env port options s =
      (Except.ok
        { id := pid,
          command := buildAgentServerCommand port
            (some (jsOrDefault options.directory DEFAULT_AGENT_SERVER_DIR)),
          status := "starting" },
       { s with startCalls := s.startCalls + 1, waitCalls := s.waitCalls + 1,
                trace := s.trace ++ [SbCall.startProcess
                    (buildAgentServerCommand port
                      (some (jsOrDefault options.directory DEFAULT_AGENT_SERVER_DIR)))
                    (jsOrDefault options.directory DEFAULT_AGENT_SERVER_DIR)
                    options.env,
                  SbCall.waitForPort pid port 60000] }) := by
  unfold startAgentServer startProcessC waitForPortC
  simp [hok, hw]

/-- Any built command is non-empty. -/
theorem buildCommand_ne_empty (port : Nat) (directory : Option String) :
    buildAgentServerCommand port directory ≠ "" :=
  ne_empty_of_strIncludes _ _ (by decide) (buildCommand_includes_path port directory)

/-- `ensureAgentServer` when the first locate finds nothing and the spawn
step fails: one further locate decides between the reuse wait and
re-raising the spawn error. -/
theorem ensure_eq_spawn_fail (env : SandboxEnv) (port : Nat)
    (options : OpenhandsOptions) (s : SbState) (e2 : SdkError) (s2 : SbState)
    (hnone : findExistingAgentServer (env.listings s.listCalls) port = none)
    (hfail : startAgentServer env port options
        { s with listCalls := s.listCalls + 1,
                 trace := s.trace ++ [SbCall.listProcesses] } =
      (Except.error e2, s2)) :
    ensureAgentServer env port options s =
      (match findExistingAgentServer (env.listings s2.listCalls) port with
       | some retryProcess => awaitStartingProcess env port retryProcess
           { s2 with listCalls := s2.listCalls + 1,
                     trace := s2.trace ++ [SbCall.listProcesses] }
       | none => (Except.error e2,
           { s2 with listCalls := s2.listCalls + 1,
                     trace := s2.trace ++ [SbCall.listProcesses] })) := by
  unfold ensureAgentServer listProcessesC
  simp only [hnone]
  rw [hfail]

/-- `ensureAgentServer` when the first locate finds nothing and the spawn
step succeeds. -/
theorem ensure_eq_spawn_ok (env : SandboxEnv) (port : Nat)
    (options : OpenhandsOptions) (s : SbState) (p : Process) (s2 : SbState)
    (hnone : findExistingAgentServer (env.listings s.listCalls) port = none)
    (hok : startAgentServer env port options
        { s with listCalls := s.listCalls + 1,
                 trace := s.trace ++ [SbCall.listProcesses] } =
      (Except.ok p, s2)) :
    ensureAgentServer env port options s = (Except.ok p, s2) := by
  unfold ensureAgentServer listProcessesC
  simp only [hnone]
  rw [hok]

/-- C6 (amended): in an ensure call in which a readiness wait fails (at
least one `waitForPort` call is made, and every `waitForPort` outcome is a
failure) and whose final outcome is an error, that error is the
`OpenhandsStartupError` whose structured context carries the original
port, a non-empty command line of the probed process, its process id, and
the captured stderr verbatim; moreover every `waitForPort` call of the
trace uses the original port and the fixed 60-second timeout.  The
amendment relative to the claim: when the race re-check locates a
concurrent winner, the call may *succeed* despite the failed wait (see the
counterexample), so the claim holds only for the calls that do fail. -/
theorem ensure_wait_failure_error_context (env : SandboxEnv) (port : Nat)
    (options : OpenhandsOptions) (e : SdkError) (s' : SbState)
    (hw : ∀ n, env.waitResults n = false)
    (hres : ensureAgentServer env port options SbState.init =
      (Except.error e, s'))
    (hwaited : 1 ≤ s'.waitCalls) :
    ∃ msg pid cmd,
      e = SdkError.startup msg
            { port := port, stderr := env.stderrOf pid,
              command := some cmd, processId := some pid } ∧
      cmd ≠ "" ∧
      (∀ q prt t, SbCall.waitForPort q prt t ∈ s'.trace →
         prt = port ∧ t = 60000) := by
  cases hf0 : findExistingAgentServer (env.listings SbState.init.listCalls) port with
  | some p =>
      rw [ensure_eq_of_first_some env port options SbState.init p hf0] at hres
      by_cases hst : p.status = "starting"
      · rw [awaitStartingProcess_wait_false env port p _ hst (hw _)] at hres
        injection hres with he hs
        injection he with hee
        subst hs
        refine ⟨_, p.id, p.command, hee.symm, ?_, ?_⟩
        · exact command_ne_empty_of_match port p (isAgentServerMatch_of_found _ _ _ hf0)
        · intro q prt t hmem
          simp [SbState.init] at hmem
          exact ⟨hmem.2.1, hmem.2.2⟩
      · rw [awaitStartingProcess_not_starting env port p _ hst] at hres
        injection hres with he hs
        exact absurd he (by simp)
  | none =>
      cases hstart : env.startResults SbState.init.startCalls with
      | error m =>
          have hSA := startAgentServer_start_error env port options
            { SbState.init with listCalls := SbState.init.listCalls + 1,
                                trace := SbState.init.trace ++ [SbCall.listProcesses] }
            m hstart
          rw [ensure_eq_spawn_fail env port options SbState.init _ _ hf0 hSA] at hres
          split at hres
          · next rp hf1 =>
              by_cases hst : rp.status = "starting"
              · rw [awaitStartingProcess_wait_false env port rp _ hst (hw _)] at hres
                injection hres with he hs
                injection he with hee
                subst hs
                refine ⟨_, rp.id, rp.command, hee.symm, ?_, ?_⟩
                · exact command_ne_empty_of_match port rp (isAgentServerMatch_of_found _ _ _ hf1)
                · intro q prt t hmem
                  simp [SbState.init] at hmem
                  exact ⟨hmem.2.1, hmem.2.2⟩
              · rw [awaitStartingProcess_not_starting env port rp _ hst] at hres
                injection hres with he hs
                exact absurd he (by simp)
          · next hf1 =>
              injection hres with he hs
              subst hs
              simp [SbState.init] at hwaited
      | ok pid =>
          have hSA := startAgentServer_wait_error env port options
            { SbState.init with listCalls := SbState.init.listCalls + 1,
                                trace := SbState.init.trace ++ [SbCall.listProcesses] }
            pid hstart (hw _)
          rw [ensure_eq_spawn_fail env port options SbState.init _ _ hf0 hSA] at hres
          split at hres
          · next rp hf1 =>
              by_cases hst : rp.status = "starting"
              · rw [awaitStartingProcess_wait_false env port rp _ hst (hw _)] at hres
                injection hres with he hs
                injection he with hee
                subst hs
                refine ⟨_, rp.id, rp.command, hee.symm, ?_, ?_⟩
                · exact command_ne_empty_of_match port rp (isAgentServerMatch_of_found _ _ _ hf1)
                · intro q prt t hmem
                  simp [SbState.init] at hmem
                  rcases hmem with h1 | h2
                  · exact ⟨h1.2.1, h1.2.2⟩
                  · exact ⟨h2.2.1, h2.2.2⟩
              · rw [awaitStartingProcess_not_starting env port rp _ hst] at hres
                injection hres with he hs
                exact absurd he (by simp)
          · next hf1 =>
              injection hres with he hs
              injection he with hee
              subst hs
              refine ⟨_, pid,
                buildAgentServerCommand port
                  (some (jsOrDefault options.directory DEFAULT_AGENT_SERVER_DIR)),
                hee.symm, buildCommand_ne_empty _ _, ?_⟩
              intro q prt t hmem
              simp [SbState.init] at hmem
              exact ⟨hmem.2.1, hmem.2.2⟩

/-- Sandbox oracle for the C6 counterexample: spawn succeeds but every
readiness wait fails; a concurrent winner appears in the table before the
re-check. -/
def envWaitCx : SandboxEnv :=
  { listings := fun n => if n = 0 then [] else
      [{ id := "winner", command := AGENT_SERVER_BASE_COMMAND 8001,
         status := "running" }],
    startResults := fun _ => Except.ok "proc-1",
    waitResults := fun _ => false,
    stderrOf := fun _ => some "boom",
    exposeResults := fun _ => Except.error "unused" }

/-- C6 counterexample: a readiness wait fails during this ensure call (one
wait call is made and its outcome is a failure), yet the call succeeds by
reusing the concurrent winner found by the race re-check — refuting "for
every ensure call in which a readiness wait fails, the call fails with an
OpenhandsStartupError". -/
theorem ensure_wait_failure_not_always_error :
    (ensureAgentServer envWaitCx 8001 {} SbState.init).1 =
      Except.ok { id := "winner", command := AGENT_SERVER_BASE_COMMAND 8001,
                  status := "running" } ∧
    (ensureAgentServer envWaitCx 8001 {} SbState.init).2.waitCalls = 1 ∧
    envWaitCx.waitResults 0 = false := by
  refine ⟨by rfl, by rfl, rfl⟩

/-- Sandbox oracle for the C6 witness: empty table throughout, spawn
succeeds, every readiness wait fails. -/
def envWaitW : SandboxEnv :=
  { listings := fun _ => [],
    startResults := fun _ => Except.ok "proc-1",
    waitResults := fun _ => false,
    stderrOf := fun _ => some "trace output",
    exposeResults := fun _ => Except.error "unused" }

/-- C6 witness: the amended theorem applied at the concrete
all-waits-fail scenario. -/
theorem ensure_wait_failure_error_context_witness :
    ∃ msg pid cmd,
      SdkError.startup
        ("agent-server failed to start on port " ++ toString 8001 ++
          ". Stderr: " ++ stderrDisplay (envWaitW.stderrOf "proc-1"))
        { port := 8001, stderr := envWaitW.stderrOf "proc-1",
          command := some (buildAgentServerCommand 8001
            (some DEFAULT_AGENT_SERVER_DIR)),
          processId := some "proc-1" } =
      SdkError.startup msg
        { port := 8001, stderr := envWaitW.stderrOf pid,
          command := some cmd, processId := some pid } ∧
      cmd ≠ "" ∧
      (∀ q prt t, SbCall.waitForPort q prt t ∈
          ({ listCalls := 2, startCalls := 1, waitCalls := 1, exposeCalls := 0,
             trace := [SbCall.listProcesses,
               SbCall.startProcess (AGENT_SERVER_BASE_COMMAND 8001)
                 DEFAULT_AGENT_SERVER_DIR [],
               SbCall.waitForPort "proc-1" 8001 60000,
               SbCall.getLogs "proc-1",
               SbCall.listProcesses] } : SbState).trace →
         prt = 8001 ∧ t = 60000) :=
  ensure_wait_failure_error_context envWaitW 8001 {}
    (SdkError.startup
      ("agent-server failed to start on port " ++ toString 8001 ++
        ". Stderr: " ++ stderrDisplay (envWaitW.stderrOf "proc-1"))
      { port := 8001, stderr := envWaitW.stderrOf "proc-1",
        command := some (buildAgentServerCommand 8001
          (some DEFAULT_AGENT_SERVER_DIR)),
        processId := some "proc-1" })
    { listCalls := 2, startCalls := 1, waitCalls := 1, exposeCalls := 0,
      trace := [SbCall.listProcesses,
        SbCall.startProcess (AGENT_SERVER_BASE_COMMAND 8001)
          DEFAULT_AGENT_SERVER_DIR [],
        SbCall.waitForPort "proc-1" 8001 60000,
        SbCall.getLogs "proc-1",
        SbCall.listProcesses] }
    (fun _ => rfl) (by rfl) (by decide)

/-- The reuse wait only ever returns the process it was given. -/
theorem awaitStartingProcess_fst_ok (env : SandboxEnv) (port : Nat)
    (p q : Process) (s : SbState)
    (h : (awaitStartingProcess env port p s).1 = Except.ok q) : q = p := by
  by_cases hst : p.status = "starting"
  · cases hwx : env.waitResults s.waitCalls with
    | false =>
        rw [awaitStartingProcess_wait_false env port p s hst hwx] at h
        exact absurd h (by simp)
    | true =>
        rw [awaitStartingProcess_wait_true env port p s hst hwx] at h
        injection h with h'
        exact h'.symm
  · rw [awaitStartingProcess_not_starting env port p s hst] at h
    injection h with h'
    exact h'.symm

/-- A successful spawn-and-probe returns a process carrying the built
command. -/
theorem startAgentServer_fst_ok (env : SandboxEnv) (port : Nat)
    (options : OpenhandsOptions) (s : SbState) (q : Process)
    (h : (startAgentServer env port options s).1 = Except.ok q) :
    q.command = buildAgentServerCommand port
      (some (jsOrDefault options.directory DEFAULT_AGENT_SERVER_DIR)) := by
  cases hstart : env.startResults s.startCalls with
  | error m =>
      rw [startAgentServer_start_error env port options s m hstart] at h
      exact absurd h (by simp)
  | ok pid =>
      cases hwx : env.waitResults s.waitCalls with
      | false =>
          rw [startAgentServer_wait_error env port options s pid hstart hwx] at h
          exact absurd h (by simp)
      | true =>
          rw [startAgentServer_ok env port options s pid hstart hwx] at h
          injection h with h'
          subst h'
          rfl

/-- Any process a successful ensure call returns carries a command line
matched by the locator's path and port patterns. -/
theorem ensureAgentServer_ok_command (env : SandboxEnv) (port : Nat)
    (options : OpenhandsOptions) (s : SbState) (p : Process) (s' : SbState)
    (h : ensureAgentServer env port options s = (Except.ok p, s')) :
    strIncludes p.command DEFAULT_AGENT_SERVER_PATH = true ∧
    (strIncludes p.command ("--port " ++ toString port) ||
     strIncludes p.command ("--port=" ++ toString port)) = true := by
  cases hf0 : findExistingAgentServer (env.listings s.listCalls) port with
  | some p0 =>
      rw [ensure_eq_of_first_some env port options s p0 hf0] at h
      have hq : p = p0 :=
        awaitStartingProcess_fst_ok env port p0 p _ (congrArg Prod.fst h)
      subst hq
      have hm := isAgentServerMatch_of_found _ _ _ hf0
      simp only [isAgentServerMatch, Bool.and_eq_true] at hm
      exact ⟨hm.1.1, hm.1.2⟩
  | none =>
      cases hstart : env.startResults s.startCalls with
      | error m =>
          have hSA := startAgentServer_start_error env port options
            { s with listCalls := s.listCalls + 1,
                     trace := s.trace ++ [SbCall.listProcesses] } m hstart
          rw [ensure_eq_spawn_fail env port options s _ _ hf0 hSA] at h
          split at h
          · next rp hf1 =>
              have hq : p = rp :=
                awaitStartingProcess_fst_ok env port rp p _ (congrArg Prod.fst h)
              subst hq
              have hm := isAgentServerMatch_of_found _ _ _ hf1
              simp only [isAgentServerMatch, Bool.and_eq_true] at hm
              exact ⟨hm.1.1, hm.1.2⟩
          · next hf1 =>
              injection h with he hs
              exact absurd he (by simp)
      | ok pid =>
          cases hwx : env.waitResults s.waitCalls with
          | true =>
              have hSA := startAgentServer_ok env port options
                { s with listCalls := s.listCalls + 1,
                         trace := s.trace ++ [SbCall.listProcesses] } pid hstart hwx
              rw [ensure_eq_spawn_ok env port options s _ _ hf0 hSA] at h
              injection h with he hs
              injection he with he'
              rw [← he']
              exact ⟨buildCommand_includes_path port _,
                by rw [Bool.or_eq_true]
                   exact Or.inl (buildCommand_includes_port port _)⟩
          | false =>
              have hSA := startAgentServer_wait_error env port options
                { s with listCalls := s.listCalls + 1,
                         trace := s.trace ++ [SbCall.listProcesses] } pid hstart hwx
              rw [ensure_eq_spawn_fail env port options s _ _ hf0 hSA] at h
              split at h
              · next rp hf1 =>
                  have hq : p = rp :=
                    awaitStartingProcess_fst_ok env port rp p _ (congrArg Prod.fst h)
                  subst hq
                  have hm := isAgentServerMatch_of_found _ _ _ hf1
                  simp only [isAgentServerMatch, Bool.and_eq_true] at hm
                  exact ⟨hm.1.1, hm.1.2⟩
              · next hf1 =>
                  injection h with he hs
                  exact absurd he (by simp)

/-- Locator over an extended table: when the old table has no match, the
locator inspects only the new tail. -/
theorem findExistingAgentServer_append_of_none (xs ys : List Process)
    (port : Nat) (h : findExistingAgentServer xs port = none) :
    findExistingAgentServer (xs ++ ys) port =
      findExistingAgentServer ys port := by
  rw [findExistingAgentServer_eq_find] at h
  rw [findExistingAgentServer_eq_find, findExistingAgentServer_eq_find,
    List.find?_append, h, Option.none_or]

/-- C5: calling the ensure operation twice in sequence with identical
options, with no intervening close and no external change to the process
table other than the first call's own effect (either the table is
unchanged because the first call reused a process, or it gained exactly
the process the first call spawned, now listed with a live status), both
calls return handles referencing the same process id and the second call
spawns no new process. -/
theorem ensure_idempotent (env : SandboxEnv) (port : Nat)
    (options : OpenhandsOptions) (p : Process) (s1 : SbState)
    (h1 : ensureAgentServer env port options SbState.init = (Except.ok p, s1))
    (h2 : (findExistingAgentServer (env.listings SbState.init.listCalls) port
             = some p ∧
           env.listings s1.listCalls = env.listings SbState.init.listCalls) ∨
          (findExistingAgentServer (env.listings SbState.init.listCalls) port
             = none ∧
           ∃ p2, p2.id = p.id ∧ p2.command = p.command ∧
             (p2.status = "starting" ∨ p2.status = "running") ∧
             env.listings s1.listCalls =
               env.listings SbState.init.listCalls ++ [p2]))
    (h3 : env.waitResults s1.waitCalls = true) :
    ∃ q s2, ensureAgentServer env port options s1 = (Except.ok q, s2) ∧
      q.id = p.id ∧ s2.startCalls = s1.startCalls := by
  rcases h2 with ⟨hf, hl⟩ | ⟨hnone, p2, hid, hcmd, hstat, hl⟩
  · have hfind2 : findExistingAgentServer (env.listings s1.listCalls) port =
        some p := by
      rw [hl]; exact hf
    rw [ensure_eq_of_first_some env port options s1 p hfind2]
    by_cases hst : p.status = "starting"
    · rw [awaitStartingProcess_wait_true env port p
        { s1 with listCalls := s1.listCalls + 1,
                  trace := s1.trace ++ [SbCall.listProcesses] } hst h3]
      exact ⟨p, _, rfl, rfl, rfl⟩
    · rw [awaitStartingProcess_not_starting env port p _ hst]
      exact ⟨p, _, rfl, rfl, rfl⟩
  · have hp := ensureAgentServer_ok_command env port options SbState.init p s1 h1
    have hmatch : isAgentServerMatch port p2 = true := by
      simp only [isAgentServerMatch, Bool.and_eq_true, Bool.or_eq_true]
      refine ⟨⟨?_, ?_⟩, ?_⟩
      · rw [hcmd]; exact hp.1
      · rw [hcmd]
        have hb := hp.2
        rw [Bool.or_eq_true] at hb
        exact hb
      · rcases hstat with h | h <;> simp [h]
    have hfind2 : findExistingAgentServer (env.listings s1.listCalls) port =
        some p2 := by
      rw [hl, findExistingAgentServer_append_of_none _ _ _ hnone,
        findExistingAgentServer_eq_find]
      exact List.find?_cons_of_pos _ hmatch
    rw [ensure_eq_of_first_some env port options s1 p2 hfind2]
    by_cases hst : p2.status = "starting"
    · rw [awaitStartingProcess_wait_true env port p2
        { s1 with listCalls := s1.listCalls + 1,
                  trace := s1.trace ++ [SbCall.listProcesses] } hst h3]
      exact ⟨p2, _, rfl, hid, rfl⟩
    · rw [awaitStartingProcess_not_starting env port p2 _ hst]
      exact ⟨p2, _, rfl, hid, rfl⟩

/-- Sandbox oracle for the C5 witness: the table is empty before the
first call and afterwards contains exactly the process the first call
spawned, now `running`. -/
def envIdemW : SandboxEnv :=
  { listings := fun n => if n = 0 then [] else
      [{ id := "proc-1", command := AGENT_SERVER_BASE_COMMAND 8001,
         status := "running" }],
    startResults := fun _ => Except.ok "proc-1",
    waitResults := fun _ => true,
    stderrOf := fun _ => none,
    exposeResults := fun _ => Except.error "unused" }

/-- C5 witness: at the concrete spawn-then-reuse scenario, the second call
returns the same process id and spawns nothing. -/
theorem ensure_idempotent_witness :
    ∃ q s2, ensureAgentServer envIdemW 8001 {}
        { listCalls := 1, startCalls := 1, waitCalls := 1, exposeCalls := 0,
          trace := [SbCall.listProcesses,
            SbCall.startProcess (AGENT_SERVER_BASE_COMMAND 8001)
              DEFAULT_AGENT_SERVER_DIR [],
            SbCall.waitForPort "proc-1" 8001 60000] } =
        (Except.ok q, s2) ∧
      q.id = "proc-1" ∧
      s2.startCalls = 1 :=
  ensure_idempotent envIdemW 8001 {}
    { id := "proc-1", command := AGENT_SERVER_BASE_COMMAND 8001,
      status := "starting" }
    { listCalls := 1, startCalls := 1, waitCalls := 1, exposeCalls := 0,
      trace := [SbCall.listProcesses,
        SbCall.startProcess (AGENT_SERVER_BASE_COMMAND 8001)
          DEFAULT_AGENT_SERVER_DIR [],
        SbCall.waitForPort "proc-1" 8001 60000] }
    (by rfl)
    (Or.inr ⟨by decide,
      { id := "proc-1", command := AGENT_SERVER_BASE_COMMAND 8001,
        status := "running" },
      rfl, rfl, Or.inr rfl, by rfl⟩)
    rfl
